import Mathlib

/-!
Verification development for the FlightOps MCP repository
(`server.py`, `client.py`, `tool_registry.py`, `app.py`).

The definitions below are a shallow embedding of the repository code.
External collaborators (the MongoDB driver, the Groq LLM client, the
`json` standard-library module, the MCP transport) are modelled as
explicit parameters carrying the outcome that the collaborator produced;
everything the repository itself computes is embedded as executable
Lean functions.
-/

set_option maxRecDepth 20000
set_option maxHeartbeats 1000000

/-- JSON-like values, the data interchanged between the planner, the
executor and the data store.  Numbers are modelled as integers (the
inputs exercised by the repository are integral). -/
inductive Json where
  | null
  | bool (b : Bool)
  | num (n : Int)
  | str (s : String)
  | arr (elems : List Json)
  | obj (fields : List (String × Json))

/-- Python truthiness (`if not x` / `if x`) restricted to JSON values. -/
def pyFalsy : Json → Bool
  | .null => true
  | .bool b => !b
  | .num n => n == 0
  | .str s => s == ""
  | .arr l => l.isEmpty
  | .obj l => l.isEmpty

/-- A single-quote character, produced without an apostrophe token. -/
def singleQuote : String := String.singleton (Char.ofNat 39)

mutual

/-- Python `repr` of a JSON value, used by `str` on containers.  The
quoting of nested strings is simplified (repr escape-rule selection for
embedded quotes is elided); no claim depends on container rendering. -/
def pyRepr : Json → String
  | .null => "None"
  | .bool b => if b then "True" else "False"
  | .num n => toString n
  | .str s => singleQuote ++ s ++ singleQuote
  | .arr xs => "[" ++ pyReprList xs ++ "]"
  | .obj fs => "\x7b" ++ pyReprFields fs ++ "\x7d"

/-- Comma-joined reprs of list elements. -/
def pyReprList : List Json → String
  | [] => ""
  | [x] => pyRepr x
  | x :: y :: xs => pyRepr x ++ ", " ++ pyReprList (y :: xs)

/-- Comma-joined reprs of dict entries. -/
def pyReprFields : List (String × Json) → String
  | [] => ""
  | [(k, v)] => singleQuote ++ k ++ singleQuote ++ ": " ++ pyRepr v
  | (k, v) :: e :: fs => singleQuote ++ k ++ singleQuote ++ ": " ++ pyRepr v ++ ", " ++ pyReprFields (e :: fs)

end

/-- Python `str` applied to a JSON value: identity on strings,
`repr`-like elsewhere. -/
def pyStr : Json → String
  | .str s => s
  | v => pyRepr v

/-- Python `str.strip` on the character list (whitespace from both ends). -/
def stripChars (cs : List Char) : List Char :=
  ((cs.dropWhile Char.isWhitespace).reverse.dropWhile Char.isWhitespace).reverse

/-- Python `str.strip`. -/
def pyStrip (s : String) : String := String.mk (stripChars s.data)

/-- Python `str.lower` (ASCII case folding suffices here). -/
def pyLower (s : String) : String := String.mk (s.data.map Char.toLower)

/-- Python `dict.get(k)` on an association list (keys are unique in
every dict the repository builds, so first-match lookup is the dict
lookup). -/
def getKey (fields : List (String × Json)) (k : String) : Option Json :=
  match fields with
  | [] => none
  | (k₀, v) :: rest => if k₀ = k then some v else getKey rest k

/-- Python `dict.pop(k)` guarded by `if k in d` — removes the entry for
`k` when present, otherwise leaves the dict unchanged. -/
def popKey (doc : List (String × Json)) (k : String) : List (String × Json) :=
  match doc with
  | [] => []
  | kv :: rest => if kv.1 = k then rest else kv :: popKey rest k

/-- Numeric value of an ASCII digit character. -/
def digitVal (c : Char) : Nat := c.toNat - 48

/-- ASCII digit character for a value below ten. -/
def digitChar (n : Nat) : Char := Char.ofNat (48 + n)

/-- Nat parsing with the underscore rule of Python `int`: an underscore
may appear only between two digits. -/
def pyIntDigits (acc : Nat) : List Char → Option Nat
  | [] => some acc
  | c :: rest =>
    if c = '_' then
      match rest with
      | c₂ :: rest₂ => if c₂.isDigit then pyIntDigits (acc * 10 + digitVal c₂) rest₂ else none
      | [] => none
    else if c.isDigit then pyIntDigits (acc * 10 + digitVal c) rest
    else none

/-- Python `int(s)` for a string: strips whitespace, accepts an optional
sign followed by digits (with single embedded underscores). -/
def pyInt (s : String) : Option Int :=
  match stripChars s.data with
  | '+' :: c :: rest =>
    if c.isDigit then (pyIntDigits (digitVal c) rest).map Int.ofNat else none
  | '-' :: c :: rest =>
    if c.isDigit then (pyIntDigits (digitVal c) rest).map (fun n => -(n : Int)) else none
  | c :: rest =>
    if c.isDigit then (pyIntDigits (digitVal c) rest).map Int.ofNat else none
  | [] => none

/-- `normalize_flight_number` from `server.py`, at string inputs (the
tool handlers always pass a string): empty input gives `none`, else the
input is stripped and parsed base 10; failure gives `none`. -/
def normalize_flight_number (flight_number : String) : Option Int :=
  if flight_number = "" then none
  else pyInt (pyStrip flight_number)

/-! ## Date validation (`validate_date` in `server.py`)

`validate_date` tries `datetime.strptime` against eight formats in
order and renders the first successful parse with
`strftime("%Y-%m-%d")`.  The parsers below follow the regular
expressions CPython `_strptime` compiles for the involved directives:
`%Y` is exactly four digits; `%m` is `1[0-2]|0[1-9]|[1-9]`; `%d` is
`3[01]|[12]\d|0[1-9]|[1-9]| [1-9]`; `%B`/`%b` match English month
names case-insensitively; whitespace in the format matches one or more
whitespace characters; the whole input must be consumed.  Because every
numeric field in these formats is followed by a non-digit delimiter or
the end of the input, the deterministic longest-alternative-first
matching below coincides with the backtracking regex semantics.
`strftime("%Y-%m-%d")` is modelled with a zero-padded four-digit year
(the rendering documented for the directive).  A parse that survives
the regex still raises `ValueError` inside `datetime` when the
components do not form a calendar date; `isValidDate` captures that
constructor check. -/

/-- Parse exactly four digits (the `%Y` directive). -/
def parseYear4 : List Char → Option (Nat × List Char)
  | c₁ :: c₂ :: c₃ :: c₄ :: rest =>
    if c₁.isDigit ∧ c₂.isDigit ∧ c₃.isDigit ∧ c₄.isDigit then
      some (digitVal c₁ * 1000 + digitVal c₂ * 100 + digitVal c₃ * 10 + digitVal c₄, rest)
    else none
  | _ => none

/-- Parse a month number (the `%m` directive). -/
def parseMonthNum : List Char → Option (Nat × List Char)
  | c₁ :: c₂ :: rest =>
    if c₁ = '1' ∧ (c₂ = '0' ∨ c₂ = '1' ∨ c₂ = '2') then some (10 + digitVal c₂, rest)
    else if c₁ = '0' ∧ '1' ≤ c₂ ∧ c₂ ≤ '9' then some (digitVal c₂, rest)
    else if '1' ≤ c₁ ∧ c₁ ≤ '9' then some (digitVal c₁, c₂ :: rest)
    else none
  | [c₁] => if '1' ≤ c₁ ∧ c₁ ≤ '9' then some (digitVal c₁, []) else none
  | [] => none

/-- Parse a day number (the `%d` directive, including the
space-padded single-digit form). -/
def parseDay : List Char → Option (Nat × List Char)
  | c₁ :: c₂ :: rest =>
    if c₁ = '3' ∧ (c₂ = '0' ∨ c₂ = '1') then some (30 + digitVal c₂, rest)
    else if (c₁ = '1' ∨ c₁ = '2') ∧ c₂.isDigit then some (digitVal c₁ * 10 + digitVal c₂, rest)
    else if c₁ = '0' ∧ '1' ≤ c₂ ∧ c₂ ≤ '9' then some (digitVal c₂, rest)
    else if '1' ≤ c₁ ∧ c₁ ≤ '9' then some (digitVal c₁, c₂ :: rest)
    else if c₁ = ' ' ∧ '1' ≤ c₂ ∧ c₂ ≤ '9' then some (digitVal c₂, rest)
    else none
  | [c₁] => if '1' ≤ c₁ ∧ c₁ ≤ '9' then some (digitVal c₁, []) else none
  | [] => none

/-- Case-insensitive match of a (lowercase) name against the head of
the input; returns the remaining input on success. -/
def matchNameChars : List Char → List Char → Option (List Char)
  | [], cs => some cs
  | _ :: _, [] => none
  | n :: ns, c :: cs => if c.toLower = n then matchNameChars ns cs else none

/-- Try month names in order.  None of the names in either list is a
prefix of another name in the same list, so the order of alternatives
does not affect the accepted language. -/
def parseMonthName : List (Nat × List Char) → List Char → Option (Nat × List Char)
  | [], _ => none
  | (num, name) :: rest, cs =>
    match matchNameChars name cs with
    | some r => some (num, r)
    | none => parseMonthName rest cs

/-- English month names for `%B`. -/
def monthNamesFull : List (Nat × List Char) :=
  [(1, "january".data), (2, "february".data), (3, "march".data), (4, "april".data),
   (5, "may".data), (6, "june".data), (7, "july".data), (8, "august".data),
   (9, "september".data), (10, "october".data), (11, "november".data), (12, "december".data)]

/-- English month abbreviations for `%b`. -/
def monthNamesAbbr : List (Nat × List Char) :=
  [(1, "jan".data), (2, "feb".data), (3, "mar".data), (4, "apr".data),
   (5, "may".data), (6, "jun".data), (7, "jul".data), (8, "aug".data),
   (9, "sep".data), (10, "oct".data), (11, "nov".data), (12, "dec".data)]

/-- One directive or literal of a strptime format string. -/
inductive Tok where
  | year
  | monthNum
  | dayNum
  | monthFull
  | monthAbbr
  | lit (c : Char)
  | ws

/-- Year, month and day extracted by a parse (strptime defaults:
1900-01-01; every format used here sets all three fields). -/
structure DateAcc where
  y : Nat
  m : Nat
  d : Nat

/-- Run a tokenized format against the input, requiring the whole
input to be consumed (strptime raises when data remains). -/
def runToks : List Tok → List Char → DateAcc → Option DateAcc
  | [], [], acc => some acc
  | [], _ :: _, _ => none
  | Tok.year :: ts, cs, acc =>
    match parseYear4 cs with
    | some (v, r) => runToks ts r ⟨v, acc.m, acc.d⟩
    | none => none
  | Tok.monthNum :: ts, cs, acc =>
    match parseMonthNum cs with
    | some (v, r) => runToks ts r ⟨acc.y, v, acc.d⟩
    | none => none
  | Tok.dayNum :: ts, cs, acc =>
    match parseDay cs with
    | some (v, r) => runToks ts r ⟨acc.y, acc.m, v⟩
    | none => none
  | Tok.monthFull :: ts, cs, acc =>
    match parseMonthName monthNamesFull cs with
    | some (v, r) => runToks ts r ⟨acc.y, v, acc.d⟩
    | none => none
  | Tok.monthAbbr :: ts, cs, acc =>
    match parseMonthName monthNamesAbbr cs with
    | some (v, r) => runToks ts r ⟨acc.y, v, acc.d⟩
    | none => none
  | Tok.lit c :: ts, cs, acc =>
    match cs with
    | c₀ :: r => if c₀ = c then runToks ts r acc else none
    | [] => none
  | Tok.ws :: ts, cs, acc =>
    match cs with
    | c₀ :: r => if c₀.isWhitespace then runToks ts (r.dropWhile Char.isWhitespace) acc else none
    | [] => none

/-- Gregorian leap-year rule used by `datetime`. -/
def isLeap (y : Nat) : Bool := y % 4 = 0 && (y % 100 ≠ 0 || y % 400 = 0)

/-- Days in a month as validated by the `datetime` constructor. -/
def daysInMonth (y m : Nat) : Nat :=
  if m = 2 then (if isLeap y then 29 else 28)
  else if m = 4 ∨ m = 6 ∨ m = 9 ∨ m = 11 then 30
  else 31

/-- The `datetime(year, month, day)` constructor check (`MINYEAR = 1`,
`MAXYEAR = 9999`). -/
def isValidDate (y m d : Nat) : Bool :=
  decide (1 ≤ y) && decide (y ≤ 9999) && decide (1 ≤ m) && decide (m ≤ 12) &&
  decide (1 ≤ d) && decide (d ≤ daysInMonth y m)

/-- `datetime.strptime(s, fmt)` for one tokenized format: regex match
plus constructor validation. -/
def tryFormat (toks : List Tok) (s : String) : Option (Nat × Nat × Nat) :=
  match runToks toks s.data ⟨1900, 1, 1⟩ with
  | some acc => if isValidDate acc.y acc.m acc.d then some (acc.y, acc.m, acc.d) else none
  | none => none

/-- The eight formats of `validate_date`, in source order:
`%Y-%m-%d`, `%d-%m-%Y`, `%Y/%m/%d`, `%d/%m/%Y`, `%B %d, %Y`,
`%d %B %Y`, `%b %d, %Y`, `%d %b %Y`. -/
def dateFormats : List (List Tok) :=
  [[Tok.year, Tok.lit '-', Tok.monthNum, Tok.lit '-', Tok.dayNum],
   [Tok.dayNum, Tok.lit '-', Tok.monthNum, Tok.lit '-', Tok.year],
   [Tok.year, Tok.lit '/', Tok.monthNum, Tok.lit '/', Tok.dayNum],
   [Tok.dayNum, Tok.lit '/', Tok.monthNum, Tok.lit '/', Tok.year],
   [Tok.monthFull, Tok.ws, Tok.dayNum, Tok.lit ',', Tok.ws, Tok.year],
   [Tok.dayNum, Tok.ws, Tok.monthFull, Tok.ws, Tok.year],
   [Tok.monthAbbr, Tok.ws, Tok.dayNum, Tok.lit ',', Tok.ws, Tok.year],
   [Tok.dayNum, Tok.ws, Tok.monthAbbr, Tok.ws, Tok.year]]

/-- Four-digit zero-padded year characters (`%Y` rendering). -/
def pad4chars (n : Nat) : List Char :=
  [digitChar (n / 1000), digitChar (n / 100 % 10), digitChar (n / 10 % 10), digitChar (n % 10)]

/-- Two-digit zero-padded characters (`%m` and `%d` rendering). -/
def pad2chars (n : Nat) : List Char :=
  [digitChar (n / 10), digitChar (n % 10)]

/-- `dt.strftime("%Y-%m-%d")`. -/
def fmtISO (y m d : Nat) : String :=
  String.mk (pad4chars y ++ '-' :: (pad2chars m ++ '-' :: pad2chars d))

/-- First format that parses wins; its date is rendered as ISO. -/
def tryFormatsFirst : List (List Tok) → String → Option String
  | [], _ => none
  | f :: fs, s =>
    match tryFormat f s with
    | some (y, m, d) => some (fmtISO y m d)
    | none => tryFormatsFirst fs s

/-- `validate_date` from `server.py`: empty input gives `none`,
otherwise the first matching format is rendered as `YYYY-MM-DD`; if no
format matches the result is `none` (logged, not raised). -/
def validate_date (date_str : String) : Option String :=
  if date_str = "" then none
  else tryFormatsFirst dateFormats date_str

/-! ## Responses, query building and fetching (`server.py`) -/

/-- The JSON envelopes produced by `response_ok` / `response_error`:
`Ok(data)` serializes `{"ok": true, "data": ...}` and `Err(msg, code)`
serializes `{"ok": false, "error": {"message": msg, "code": code}}`. -/
inductive Resp where
  | ok (data : Json)
  | err (message : String) (code : Nat)

/-- `response_ok` from `server.py`. -/
def response_ok (data : Json) : Resp := Resp.ok data

/-- `response_error` from `server.py` (the default code 400 is always
written out explicitly at call sites below). -/
def response_error (msg : String) (code : Nat) : Resp := Resp.err msg code

/-- `make_query` from `server.py`: one predicate entry per provided
component, targeting the fixed `flightLegState` field paths.  A missing
or empty component contributes nothing. -/
def make_query (carrier : String) (flight_number : Option Int) (date_of_origin : Option String) :
    List (String × Json) :=
  (if carrier = "" then [] else [("flightLegState.carrier", Json.str carrier)])
  ++ (match flight_number with
      | some n => [("flightLegState.flightNumber", Json.num n)]
      | none => [])
  ++ (match date_of_origin with
      | some d => if d = "" then [] else [("flightLegState.dateOfOrigin", Json.str d)]
      | none => [])

/-- Outcome of `col.find_one(query, projection)` as observed inside the
`try` of `_fetch_one_async`: a document, `None`, or a raised exception
(connectivity failure, malformed query, including a failure to obtain
the client). -/
inductive FetchOutcome where
  | found (doc : List (String × Json))
  | missing
  | raised (msg : String)

/-- `_fetch_one_async` from `server.py`: `None` (and, by Python
truthiness, an empty document) maps to a 404, an exception maps to a
500 whose message embeds the cause, and a document is returned with its
`_id` and `_class` entries removed. -/
def _fetch_one_async (outcome : FetchOutcome) : Resp :=
  match outcome with
  | .raised msg => response_error ("DB query failed: " ++ msg) 500
  | .missing => response_error "No matching document found." 404
  | .found doc =>
    if doc.isEmpty then response_error "No matching document found." 404
    else response_ok (Json.obj (popKey (popKey doc "_id") "_class"))

/-- Outcome of the health-check probe `col.find_one({}, {"_id": 1})`:
either it completes with an optional document or it raises. -/
def ProbeOutcome := Except String (Option (List (String × Json)))

/-- `health_check` from `server.py`. -/
def health_check (probe : ProbeOutcome) : Resp :=
  match probe with
  | .error _ => response_error "DB unreachable" 503
  | .ok doc =>
    response_ok (Json.obj [("status", Json.str "ok"), ("db_connected", Json.bool doc.isSome)])

/-- A fetch issued against the data store: the query predicate and the
projection (the declared field paths). -/
def FetchCall := List (String × Json) × List String

/-- Projection of `get_flight_basic_info`. -/
def basic_info_projection : List String :=
  ["flightLegState.carrier", "flightLegState.flightNumber", "flightLegState.suffix",
   "flightLegState.dateOfOrigin", "flightLegState.seqNumber", "flightLegState.startStation",
   "flightLegState.endStation", "flightLegState.startStationICAO", "flightLegState.endStationICAO",
   "flightLegState.scheduledStartTime", "flightLegState.scheduledEndTime",
   "flightLegState.flightStatus", "flightLegState.operationalStatus", "flightLegState.flightType",
   "flightLegState.blockTimeSch", "flightLegState.blockTimeActual",
   "flightLegState.flightHoursActual"]

/-- Projection of `get_operation_times`. -/
def operation_times_projection : List String :=
  ["flightLegState.carrier", "flightLegState.flightNumber", "flightLegState.dateOfOrigin",
   "flightLegState.startStation", "flightLegState.endStation", "flightLegState.scheduledStartTime",
   "flightLegState.scheduledEndTime", "flightLegState.operation.estimatedTimes",
   "flightLegState.operation.actualTimes", "flightLegState.taxiOutTime", "flightLegState.taxiInTime",
   "flightLegState.blockTimeSch", "flightLegState.blockTimeActual",
   "flightLegState.flightHoursActual"]

/-- Projection of `get_equipment_info`. -/
def equipment_projection : List String :=
  ["flightLegState.carrier", "flightLegState.flightNumber", "flightLegState.dateOfOrigin",
   "flightLegState.equipment.plannedAircraftType", "flightLegState.equipment.aircraft",
   "flightLegState.equipment.aircraftConfiguration", "flightLegState.equipment.aircraftRegistration",
   "flightLegState.equipment.assignedAircraftTypeIATA", "flightLegState.equipment.assignedAircraftTypeICAO",
   "flightLegState.equipment.assignedAircraftTypeIndigo", "flightLegState.equipment.assignedAircraftConfiguration",
   "flightLegState.equipment.tailLock", "flightLegState.equipment.onwardFlight",
   "flightLegState.equipment.actualOnwardFlight"]

/-- Projection of `get_delay_summary`. -/
def delay_projection : List String :=
  ["flightLegState.carrier", "flightLegState.flightNumber", "flightLegState.dateOfOrigin",
   "flightLegState.startStation", "flightLegState.endStation", "flightLegState.scheduledStartTime",
   "flightLegState.operation.actualTimes.offBlock", "flightLegState.delays"]

/-- Projection of `get_fuel_summary`. -/
def fuel_projection : List String :=
  ["flightLegState.carrier", "flightLegState.flightNumber", "flightLegState.dateOfOrigin",
   "flightLegState.startStation", "flightLegState.endStation", "flightLegState.operation.fuel",
   "flightLegState.operation.flightPlan.offBlockFuel", "flightLegState.operation.flightPlan.takeoffFuel",
   "flightLegState.operation.flightPlan.landingFuel", "flightLegState.operation.flightPlan.holdFuel"]

/-- Projection of `get_passenger_info`. -/
def passenger_projection : List String :=
  ["flightLegState.carrier", "flightLegState.flightNumber", "flightLegState.dateOfOrigin",
   "flightLegState.pax"]

/-- Projection of `get_crew_info`. -/
def crew_projection : List String :=
  ["flightLegState.carrier", "flightLegState.flightNumber", "flightLegState.dateOfOrigin",
   "flightLegState.crewConnections"]

/-- `get_flight_basic_info` from `server.py`.  The `fetch` parameter is
the data-store collaborator; the second component of the result records
every fetch the handler issued. -/
def get_flight_basic_info (carrier flight_number date_of_origin : String)
    (fetch : List (String × Json) → List String → FetchOutcome) : Resp × List FetchCall :=
  let fn := if flight_number = "" then none else normalize_flight_number flight_number
  let dob := if date_of_origin = "" then none else validate_date date_of_origin
  if date_of_origin ≠ "" ∧ dob = none then
    (response_error "Invalid date_of_origin format. Expected YYYY-MM-DD or common date formats" 400, [])
  else
    let query := make_query carrier fn dob
    (_fetch_one_async (fetch query basic_info_projection), [(query, basic_info_projection)])

/-- `get_operation_times` from `server.py`. -/
def get_operation_times (carrier flight_number date_of_origin : String)
    (fetch : List (String × Json) → List String → FetchOutcome) : Resp × List FetchCall :=
  let fn := if flight_number = "" then none else normalize_flight_number flight_number
  let dob := if date_of_origin = "" then none else validate_date date_of_origin
  if date_of_origin ≠ "" ∧ dob = none then
    (response_error "Invalid date format." 400, [])
  else
    let query := make_query carrier fn dob
    (_fetch_one_async (fetch query operation_times_projection), [(query, operation_times_projection)])

/-- `get_equipment_info` from `server.py`.  Note: unlike the two
handlers above, there is no rejection branch for an unparseable
non-empty date; the date constraint is silently dropped. -/
def get_equipment_info (carrier flight_number date_of_origin : String)
    (fetch : List (String × Json) → List String → FetchOutcome) : Resp × List FetchCall :=
  let fn := if flight_number = "" then none else normalize_flight_number flight_number
  let dob := if date_of_origin = "" then none else validate_date date_of_origin
  let query := make_query carrier fn dob
  (_fetch_one_async (fetch query equipment_projection), [(query, equipment_projection)])

/-- `get_delay_summary` from `server.py` (no date-rejection branch). -/
def get_delay_summary (carrier flight_number date_of_origin : String)
    (fetch : List (String × Json) → List String → FetchOutcome) : Resp × List FetchCall :=
  let fn := if flight_number = "" then none else normalize_flight_number flight_number
  let dob := if date_of_origin = "" then none else validate_date date_of_origin
  let query := make_query carrier fn dob
  (_fetch_one_async (fetch query delay_projection), [(query, delay_projection)])

/-- `get_fuel_summary` from `server.py` (no date-rejection branch). -/
def get_fuel_summary (carrier flight_number date_of_origin : String)
    (fetch : List (String × Json) → List String → FetchOutcome) : Resp × List FetchCall :=
  let fn := if flight_number = "" then none else normalize_flight_number flight_number
  let dob := if date_of_origin = "" then none else validate_date date_of_origin
  let query := make_query carrier fn dob
  (_fetch_one_async (fetch query fuel_projection), [(query, fuel_projection)])

/-- `get_passenger_info` from `server.py` (no date-rejection branch). -/
def get_passenger_info (carrier flight_number date_of_origin : String)
    (fetch : List (String × Json) → List String → FetchOutcome) : Resp × List FetchCall :=
  let fn := if flight_number = "" then none else normalize_flight_number flight_number
  let dob := if date_of_origin = "" then none else validate_date date_of_origin
  let query := make_query carrier fn dob
  (_fetch_one_async (fetch query passenger_projection), [(query, passenger_projection)])

/-- `get_crew_info` from `server.py` (no date-rejection branch). -/
def get_crew_info (carrier flight_number date_of_origin : String)
    (fetch : List (String × Json) → List String → FetchOutcome) : Resp × List FetchCall :=
  let fn := if flight_number = "" then none else normalize_flight_number flight_number
  let dob := if date_of_origin = "" then none else validate_date date_of_origin
  let query := make_query carrier fn dob
  (_fetch_one_async (fetch query crew_projection), [(query, crew_projection)])

/-- Outcome of the multi-document cursor iteration of
`raw_mongodb_query`: the collected documents, or an exception somewhere
inside the `try` (client acquisition, find, iteration). -/
inductive RawOutcome where
  | docs (ds : List (List (String × Json)))
  | raised (msg : String)

/-- The example-syntax fragment embedded in the invalid-JSON error of
`raw_mongodb_query`. -/
def rawQueryExample : String :=
  singleQuote ++ "\x7b\"flightLegState.carrier\": \"6E\"\x7d" ++ singleQuote

/-- `raw_mongodb_query` from `server.py`.  `parsed` is the outcome of
`json.loads(query_json)` (`Except.error` carries `str(e)` of the
`JSONDecodeError`); `run` is the data-store collaborator receiving the
parsed filter and the effective limit; the trace records the issued
find.  The limit is clamped by `min(max(1, int(limit)), 50)`. -/
def raw_mongodb_query (parsed : Except String Json) (limit : Int)
    (run : Json → Int → RawOutcome) : Resp × List (Json × Int) :=
  match parsed with
  | .error e =>
    (response_error ("Invalid JSON query: " ++ e ++ ". Example: " ++ rawQueryExample) 400, [])
  | .ok q =>
    let lim := min (max 1 limit) 50
    match run q lim with
    | .raised msg => (response_error ("raw query failed: " ++ msg) 500, [(q, lim)])
    | .docs ds =>
      let cleaned := ds.map (fun d => popKey (popKey d "_id") "_class")
      if cleaned.isEmpty then
        (response_error "No documents found for given query." 404, [(q, lim)])
      else
        (response_ok (Json.obj [("count", Json.num cleaned.length),
                                ("documents", Json.arr (cleaned.map Json.obj))]), [(q, lim)])

/-! ## Tool catalog (`tool_registry.py`) and client (`client.py`) -/

/-- One catalog entry: declared argument names and description. -/
structure ToolMeta where
  args : List String
  desc : String

/-- `TOOLS` from `tool_registry.py`, in insertion order.  (Python dicts
iterate in insertion order, so a list of pairs is the faithful model.) -/
def TOOLS : List (String × ToolMeta) :=
  [("get_flight_basic_info",
    ⟨["carrier", "flight_number", "date_of_origin"],
     "Fetch basic flight information including carrier, flight number, stations, scheduled times, and flight status."⟩),
   ("get_equipment_info",
    ⟨["carrier", "flight_number", "date_of_origin"],
     "Get aircraft equipment details: aircraft type, tail number (registration), and configuration."⟩),
   ("get_operation_times",
    ⟨["carrier", "flight_number", "date_of_origin"],
     "Return estimated and actual operation times: takeoff, landing, departure, arrival, and block times."⟩),
   ("get_fuel_summary",
    ⟨["carrier", "flight_number", "date_of_origin"],
     "Retrieve fuel summary including planned vs actual fuel consumption for the flight."⟩),
   ("get_delay_summary",
    ⟨["carrier", "flight_number", "date_of_origin"],
     "Get delay information including delay reasons, durations, and total delay time."⟩),
   ("health_check",
    ⟨[], "Check the health status of the MCP server and database connection."⟩),
   ("raw_mongodb_query",
    ⟨["query_json", "limit"],
     "Run a raw MongoDB query (JSON format) for debugging purposes."⟩)]

/-- `_build_tool_prompt` from `client.py`: the compact
`- name(args): description` rendering of the catalog, one line per
tool, joined by newlines. -/
def _build_tool_prompt : String :=
  String.intercalate "\n"
    (TOOLS.map (fun p =>
      "- " ++ p.1 ++ "(" ++ String.intercalate ", " p.2.args ++ "): " ++ p.2.desc))

/-- Whether a parsed value is a dict containing the key `"plan"`
(the `isinstance(plan, dict) and "plan" in plan` check). -/
def hasPlanKey : Json → Bool
  | .obj fs => fs.any (fun kv => kv.1 == "plan")
  | _ => false

/-- `plan_tools` from `client.py`.  The LLM call and `json.loads` are
collaborators: `parsed` is `some p` when the LLM response text parsed
to the JSON value `p` and `none` when `json.loads` raised
`JSONDecodeError`.  A parse failure or a parse that is not a dict with
a `"plan"` key degrades to the empty plan. -/
def plan_tools (parsed : Option Json) : Json :=
  match parsed with
  | some p => if hasPlanKey p then p else Json.obj [("plan", Json.arr [])]
  | none => Json.obj [("plan", Json.arr [])]

/-- One item of `result.content` as examined by `invoke_tool`: a text
item carries its raw text and the outcome of `json.loads` on it
(`none` when parsing raised); a non-text item has no `text`
attribute. -/
inductive ContentItem where
  | textItem (text : String) (parsed : Option Json)
  | other

/-- `invoke_tool` from `client.py`, as a function of the MCP
`session.call_tool` outcome: every exception is caught and becomes an
`{"error": ...}` dict, text items are JSON-parsed when possible, a
single content item is returned directly, several are wrapped under
`"results"`, and an empty content list yields the no-content error. -/
def invoke_tool (outcome : Except String (List ContentItem)) : Json :=
  match outcome with
  | .error e => Json.obj [("error", Json.str e)]
  | .ok items =>
    if items.isEmpty then Json.obj [("error", Json.str "No content in response")]
    else
      let content_items := items.filterMap (fun it =>
        match it with
        | .textItem text parsed => some (parsed.getD (Json.str text))
        | .other => none)
      match content_items with
      | [x] => x
      | xs => Json.obj [("results", Json.arr xs)]

/-- The argument-sanitation dict comprehension inside `run_query`:
keep an entry unless its value is `None`, is empty after stripping, or
lowercases (without stripping) to the literal `"unknown"`. -/
def sanitize_args (args : List (String × Json)) : List (String × Json) :=
  args.filter (fun kv =>
    (match kv.2 with | Json.null => false | _ => true)
    && (pyStrip (pyStr kv.2) != "")
    && (pyLower (pyStr kv.2) != "unknown"))

/-- `step.get("tool")` (Python `None` when the key is absent). -/
def stepTool (step : Json) : Json :=
  match step with
  | .obj fields => (getKey fields "tool").getD Json.null
  | _ => Json.null

/-- `step.get("arguments", {})`. -/
def stepArgs (step : Json) : Json :=
  match step with
  | .obj fields => (getKey fields "arguments").getD (Json.obj [])
  | _ => Json.obj []

/-- The argument dict of a step when it is a dict (the only shape the
loop can process without raising). -/
def stepArgFields (step : Json) : List (String × Json) :=
  match stepArgs step with
  | .obj a => a
  | _ => []

/-- A step the execution loop can process without raising: the step is
a dict and its `"arguments"` entry (defaulted to `{}`) is a dict. -/
def wfStep (step : Json) : Bool :=
  match step with
  | .obj _ => (match stepArgs step with | .obj _ => true | _ => false)
  | _ => false

/-- The execution loop of `run_query` over the plan steps, with the
transport collaborator `call` standing for `session.call_tool`:
sanitize the arguments, skip the step when its tool value is falsy,
otherwise append the pair of tool value and `invoke_tool` result.
`none` models an exception escaping the loop (a non-dict step or
non-dict arguments value — `run_query` has no handler for those). -/
def exec_plan (call : Json → List (String × Json) → Except String (List ContentItem)) :
    List Json → Option (List (Json × Json))
  | [] => some []
  | step :: rest =>
    match step with
    | .obj _ =>
      match stepArgs step with
      | .obj argFields =>
        let args := sanitize_args argFields
        if pyFalsy (stepTool step) then exec_plan call rest
        else
          match exec_plan call rest with
          | some rs => some ((stepTool step, invoke_tool (call (stepTool step) args)) :: rs)
          | none => none
      | _ => none
    | _ => none

/-- The per-step contribution used to characterize the loop: `none`
for a skipped (falsy-tool) step, otherwise the appended pair. -/
def stepEntry (call : Json → List (String × Json) → Except String (List ContentItem))
    (step : Json) : Option (Json × Json) :=
  if pyFalsy (stepTool step) then none
  else some (stepTool step, invoke_tool (call (stepTool step) (sanitize_args (stepArgFields step))))

/-- Result of one `run_query` call.  `done` carries the plan steps, the
ordered `(tool, result)` pairs and the summary text (Python wraps the
latter as `{"summary": text}`); `errorOut` is the `{"error": ...}`
early return; `raised` marks the unmodelled exception escapes (a
truthy non-list plan, a non-dict step, or non-dict arguments). -/
inductive RunOut where
  | errorOut (msg : String)
  | raised
  | done (plan : List Json) (results : List (Json × Json)) (summary : String)

/-- `run_query` from `client.py`.  `planParsed` is the `json.loads`
outcome on the planner LLM response; `call` is the MCP transport;
`summ` is the summarizer collaborator (`_call_groq` catches its own
exceptions, so it is total).  The plan is extracted with
`plan_data.get("plan", [])`; an empty (falsy) plan short-circuits with
the structured error before any tool call or summarization. -/
def run_query (planParsed : Option Json)
    (call : Json → List (String × Json) → Except String (List ContentItem))
    (summ : List Json → List (Json × Json) → String) : RunOut :=
  let plan_data := plan_tools planParsed
  let plan := (match plan_data with
    | .obj fs => (getKey fs "plan").getD (Json.arr [])
    | _ => Json.arr [])
  if pyFalsy plan then RunOut.errorOut "LLM did not produce a valid tool plan."
  else
    match plan with
    | .arr steps =>
      match exec_plan call steps with
      | some results => RunOut.done steps results (summ steps results)
      | none => RunOut.raised
    | _ => RunOut.raised

/-! ## Claims about the tool catalog and its rendering (C3, C9) -/

/-- C3 counterexample: the Tool Catalog has no entry for the passenger
info tool (nor for the crew info tool), although both tools exist on
the server; the claim that the catalog covers passenger info and crew
info is false. -/
theorem claim_C3_counterexample :
    (TOOLS.map Prod.fst).contains "get_passenger_info" = false ∧
    (TOOLS.map Prod.fst).contains "get_crew_info" = false := by
  constructor <;> rfl

/-- C3 amended: the Tool Catalog contains exactly the entries for basic
flight info, equipment info, operation times, fuel summary, delay
summary, health check and the raw-query debug tool, in that order; it
contains no entry for passenger info or crew info even though
`get_passenger_info` and `get_crew_info` are served. -/
theorem claim_C3_amended :
    TOOLS.map Prod.fst =
      ["get_flight_basic_info", "get_equipment_info", "get_operation_times",
       "get_fuel_summary", "get_delay_summary", "health_check", "raw_mongodb_query"] ∧
    (TOOLS.map Prod.fst).contains "get_passenger_info" = false ∧
    (TOOLS.map Prod.fst).contains "get_crew_info" = false := by
  refine ⟨rfl, rfl, rfl⟩

/-- C9: rendering the Tool Catalog to its compact textual listing is
deterministic — two renderings of the same catalog are byte-identical —
and the rendered bytes are pinned to the explicit literal below. -/
theorem claim_C9_theorem :
    _build_tool_prompt = _build_tool_prompt ∧
    _build_tool_prompt =
      "- get_flight_basic_info(carrier, flight_number, date_of_origin): Fetch basic flight information including carrier, flight number, stations, scheduled times, and flight status.\n- get_equipment_info(carrier, flight_number, date_of_origin): Get aircraft equipment details: aircraft type, tail number (registration), and configuration.\n- get_operation_times(carrier, flight_number, date_of_origin): Return estimated and actual operation times: takeoff, landing, departure, arrival, and block times.\n- get_fuel_summary(carrier, flight_number, date_of_origin): Retrieve fuel summary including planned vs actual fuel consumption for the flight.\n- get_delay_summary(carrier, flight_number, date_of_origin): Get delay information including delay reasons, durations, and total delay time.\n- health_check(): Check the health status of the MCP server and database connection.\n- raw_mongodb_query(query_json, limit): Run a raw MongoDB query (JSON format) for debugging purposes." := by
  refine ⟨rfl, rfl⟩

/-! ## Claim about the health check (C10) -/

/-- C10: when the probe succeeds, `health_check` returns the Ok variant
with `db_connected` mirroring whether a document was found — in
particular an empty collection (probe succeeds, no document) gives Ok
with `db_connected = false`, not an error — and the
`Err("DB unreachable", 503)` branch is taken exactly when the probe
raises. -/
theorem claim_C10_theorem :
    (∀ doc : Option (List (String × Json)),
      health_check (Except.ok doc) =
        response_ok (Json.obj [("status", Json.str "ok"), ("db_connected", Json.bool doc.isSome)])) ∧
    health_check (Except.ok none) =
      response_ok (Json.obj [("status", Json.str "ok"), ("db_connected", Json.bool false)]) ∧
    (∀ probe : Except String (Option (List (String × Json))),
      health_check probe = response_error "DB unreachable" 503 ↔ ∃ msg, probe = Except.error msg) := by
  refine ⟨fun doc => rfl, rfl, fun probe => ?_⟩
  constructor
  · intro h
    cases probe with
    | error msg => exact ⟨msg, rfl⟩
    | ok doc => simp [health_check, response_ok, response_error] at h
  · rintro ⟨msg, rfl⟩
    rfl

/-! ## Claim about the raw-query tool (C7) -/

/-- C7: for every integer limit, the raw-query tool issues its find
with the effective limit `min(max(1, limit), 50)` — so `limit = 1000`
runs with 50 and `limit = 0` runs with 1 — and an invalid-JSON filter
string yields `Err(..., 400)` whose message embeds the valid-syntax
example, with no fetch issued. -/
theorem claim_C7_theorem :
    (∀ (q : Json) (limit : Int) (run : Json → Int → RawOutcome),
      (raw_mongodb_query (Except.ok q) limit run).2 = [(q, min (max 1 limit) 50)]) ∧
    (∀ (q : Json) (run : Json → Int → RawOutcome),
      (raw_mongodb_query (Except.ok q) 1000 run).2 = [(q, 50)]) ∧
    (∀ (q : Json) (run : Json → Int → RawOutcome),
      (raw_mongodb_query (Except.ok q) 0 run).2 = [(q, 1)]) ∧
    (∀ (e : String) (limit : Int) (run : Json → Int → RawOutcome),
      raw_mongodb_query (Except.error e) limit run =
        (response_error ("Invalid JSON query: " ++ e ++ ". Example: " ++ rawQueryExample) 400, [])) := by
  have h : ∀ (q : Json) (limit : Int) (run : Json → Int → RawOutcome),
      (raw_mongodb_query (Except.ok q) limit run).2 = [(q, min (max 1 limit) 50)] := by
    intro q limit run
    unfold raw_mongodb_query
    cases hr : run q (min (max 1 limit) 50) with
    | raised msg => simp [hr]
    | docs ds =>
      simp only [hr]
      by_cases he : (ds.map (fun d => popKey (popKey d "_id") "_class")).isEmpty <;> simp [he]
  refine ⟨h, fun q run => ?_, fun q run => ?_, fun e limit run => rfl⟩
  · have := h q 1000 run
    norm_num at this ⊢
    exact this
  · have := h q 0 run
    norm_num at this ⊢
    exact this

/-! ## Claims about date rejection in the lookup tools (C1) -/

/-- C1 counterexample: `get_equipment_info`, given a non-empty
unparseable date, does not return a 400-class error and does issue a
fetch — the query is simply built without the date constraint (here it
reaches the store and reports the 404 of an unmatched query).  The
claim that every data-lookup tool rejects an unparseable date with a
400-class error and no fetch is therefore false. -/
theorem claim_C1_counterexample :
    validate_date "not-a-date" = none ∧
    (get_equipment_info "6E" "215" "not-a-date" (fun _ _ => FetchOutcome.missing)).2 =
      [(make_query "6E" (some 215) none, equipment_projection)] ∧
    (get_equipment_info "6E" "215" "not-a-date" (fun _ _ => FetchOutcome.missing)).1 =
      response_error "No matching document found." 404 :=
  ⟨rfl, rfl, rfl⟩

/-- C1 amended: for a non-empty `date_of_origin` matching no accepted
format, only `get_flight_basic_info` and `get_operation_times` return
`Err` with code 400 and issue no fetch; `get_equipment_info`,
`get_delay_summary`, `get_fuel_summary`, `get_passenger_info` and
`get_crew_info` issue their fetch anyway, with the date constraint
silently dropped from the query. -/
theorem claim_C1_amended (c n d : String)
    (fetch : List (String × Json) → List String → FetchOutcome)
    (hd : d ≠ "") (hv : validate_date d = none) :
    get_flight_basic_info c n d fetch =
      (response_error "Invalid date_of_origin format. Expected YYYY-MM-DD or common date formats" 400, []) ∧
    get_operation_times c n d fetch = (response_error "Invalid date format." 400, []) ∧
    (get_equipment_info c n d fetch).2 =
      [(make_query c (if n = "" then none else normalize_flight_number n) none, equipment_projection)] ∧
    (get_delay_summary c n d fetch).2 =
      [(make_query c (if n = "" then none else normalize_flight_number n) none, delay_projection)] ∧
    (get_fuel_summary c n d fetch).2 =
      [(make_query c (if n = "" then none else normalize_flight_number n) none, fuel_projection)] ∧
    (get_passenger_info c n d fetch).2 =
      [(make_query c (if n = "" then none else normalize_flight_number n) none, passenger_projection)] ∧
    (get_crew_info c n d fetch).2 =
      [(make_query c (if n = "" then none else normalize_flight_number n) none, crew_projection)] := by
  refine ⟨?_, ?_, ?_, ?_, ?_, ?_, ?_⟩ <;>
    simp [get_flight_basic_info, get_operation_times, get_equipment_info, get_delay_summary,
          get_fuel_summary, get_passenger_info, get_crew_info, hd, hv]

/-- C1 witness: the amended theorem applied at a concrete unparseable
date. -/
theorem claim_C1_witness :
    "not-a-date" ≠ "" ∧ validate_date "not-a-date" = none ∧
    get_flight_basic_info "6E" "215" "not-a-date" (fun _ _ => FetchOutcome.missing) =
      (response_error "Invalid date_of_origin format. Expected YYYY-MM-DD or common date formats" 400, []) :=
  ⟨by decide, by decide,
   (claim_C1_amended "6E" "215" "not-a-date" (fun _ _ => FetchOutcome.missing)
     (by decide) (by decide)).1⟩

/-! ## Claims about argument sanitation (C2) -/

/-- C2 counterexample: the value `" unknown "` equals `"unknown"` after
trimming and lowercasing, yet the sanitized mapping still contains its
key — the comprehension lowercases without stripping before comparing
against `"unknown"`.  The claim as stated is therefore false. -/
theorem claim_C2_counterexample :
    pyLower (pyStrip (pyStr (Json.str " unknown "))) = "unknown" ∧
    sanitize_args [("carrier", Json.str " unknown ")] = [("carrier", Json.str " unknown ")] :=
  ⟨rfl, rfl⟩

/-- C2 amended: an entry survives sanitation exactly when its value is
not null, is non-empty after trimming, and does not equal `"unknown"`
after lowercasing alone (no trimming before the comparison).  In
particular `"unknown"`, `"UNKNOWN"`, null and whitespace-only values
are stripped, but a value equal to `"unknown"` only after trimming
surrounding whitespace is retained. -/
theorem claim_C2_amended (args : List (String × Json)) (k : String) (v : Json) :
    (k, v) ∈ sanitize_args args ↔
      ((k, v) ∈ args ∧ v ≠ Json.null ∧ pyStrip (pyStr v) ≠ "" ∧ pyLower (pyStr v) ≠ "unknown") := by
  have hnull : ∀ w : Json, (match w with | Json.null => false | _ => true) = true ↔ w ≠ Json.null := by
    intro w
    cases w <;> simp
  simp only [sanitize_args, List.mem_filter, Bool.and_eq_true, bne_iff_ne, ne_eq, hnull]
  tauto

/-! ## Claims about the single-document fetch (C6) -/

/-- `popKey` returns a sublist of its input. -/
theorem popKey_sublist (l : List (String × Json)) (k : String) : (popKey l k).Sublist l := by
  induction l with
  | nil => simp [popKey]
  | cons kv rest ih =>
    by_cases h : kv.1 = k
    · simp only [popKey, if_pos h]
      exact List.Sublist.cons kv (List.Sublist.refl rest)
    · simp only [popKey, if_neg h]
      exact List.Sublist.cons₂ kv ih

/-- Under unique keys, removing the first entry for a key removes every
entry for it. -/
theorem popKey_eq_filter (l : List (String × Json)) (k : String)
    (h : (l.map Prod.fst).Nodup) : popKey l k = l.filter (fun kv => kv.1 != k) := by
  induction l with
  | nil => rfl
  | cons kv rest ih =>
    simp only [List.map_cons, List.nodup_cons] at h
    obtain ⟨hnotin, hnd⟩ := h
    by_cases hk : kv.1 = k
    · subst hk
      have hval : ∀ p ∈ rest, (fun q : String × Json => q.1 != kv.1) p = true := by
        intro p hp
        have : p.1 ≠ kv.1 := by
          intro he
          exact hnotin (he ▸ List.mem_map_of_mem Prod.fst hp)
        simpa using this
      simp [popKey, List.filter_cons, List.filter_eq_self.mpr hval]
    · simp [popKey, hk, List.filter_cons, ih hnd]

/-- C6: for the shared single-document fetch, an unmatched query gives
`Err("No matching document found.", 404)`, a raised store operation
gives `Err` with code 500 and a message embedding the underlying cause,
and success gives `Ok` holding the fetched document with its `_id` and
`_class` entries removed (all remaining entries kept, in order). -/
theorem claim_C6_theorem (doc : List (String × Json))
    (h1 : (doc.map Prod.fst).Nodup) (h2 : doc ≠ []) :
    _fetch_one_async (FetchOutcome.found doc) =
      response_ok (Json.obj (doc.filter (fun kv => kv.1 != "_id" && kv.1 != "_class"))) ∧
    _fetch_one_async FetchOutcome.missing = response_error "No matching document found." 404 ∧
    (∀ msg, _fetch_one_async (FetchOutcome.raised msg) =
      response_error ("DB query failed: " ++ msg) 500) := by
  refine ⟨?_, rfl, fun msg => rfl⟩
  have hne : doc.isEmpty = false := by
    cases doc with
    | nil => exact absurd rfl h2
    | cons kv rest => rfl
  rw [_fetch_one_async, hne]
  rw [popKey_eq_filter doc "_id" h1,
      popKey_eq_filter _ "_class" (h1.sublist (List.Sublist.map Prod.fst (List.filter_sublist doc))),
      List.filter_filter]
  have hcomm : (fun a : String × Json => a.1 != "_class" && a.1 != "_id")
      = (fun kv : String × Json => kv.1 != "_id" && kv.1 != "_class") := by
    funext a
    rw [Bool.and_comm]
  simp [hcomm]

/-- C6 witness: the theorem applied to a concrete three-field document
carrying `_id` and `_class`. -/
theorem claim_C6_witness :
    _fetch_one_async (FetchOutcome.found
        [("_id", Json.str "x"), ("_class", Json.str "y"), ("pax", Json.num 180)]) =
      response_ok (Json.obj [("pax", Json.num 180)]) :=
  (claim_C6_theorem [("_id", Json.str "x"), ("_class", Json.str "y"), ("pax", Json.num 180)]
    (by decide) (by simp)).1

/-! ## Claims about planning degradation (C4) and the execution loop (C5) -/

/-- C4: when the planner LLM response does not parse, or parses to a
value that is not a dict with a `"plan"` key, `plan_tools` degrades to
the empty plan; `run_query` then terminates with the structured
no-valid-plan error, and its result does not depend on the transport or
summarizer collaborators at all (no tool is invoked, no summary is
requested). -/
theorem claim_C4_theorem (parsed : Option Json)
    (h : ∀ p, parsed = some p → hasPlanKey p = false) :
    plan_tools parsed = Json.obj [("plan", Json.arr [])] ∧
    (∀ (call : Json → List (String × Json) → Except String (List ContentItem))
       (summ : List Json → List (Json × Json) → String),
      run_query parsed call summ = RunOut.errorOut "LLM did not produce a valid tool plan.") ∧
    (∀ (call₁ call₂ : Json → List (String × Json) → Except String (List ContentItem))
       (summ₁ summ₂ : List Json → List (Json × Json) → String),
      run_query parsed call₁ summ₁ = run_query parsed call₂ summ₂) := by
  have hpt : plan_tools parsed = Json.obj [("plan", Json.arr [])] := by
    cases parsed with
    | none => rfl
    | some p => simp [plan_tools, h p rfl]
  have hrq : ∀ (call : Json → List (String × Json) → Except String (List ContentItem))
      (summ : List Json → List (Json × Json) → String),
      run_query parsed call summ = RunOut.errorOut "LLM did not produce a valid tool plan." := by
    intro call summ
    simp [run_query, hpt, getKey, pyFalsy]
  exact ⟨hpt, hrq, fun c₁ c₂ s₁ s₂ => (hrq c₁ s₁).trans (hrq c₂ s₂).symm⟩

/-- C4 witness: the theorem at a parse failure, with collaborators that
would fail loudly if they were consulted. -/
theorem claim_C4_witness :
    plan_tools none = Json.obj [("plan", Json.arr [])] ∧
    run_query none (fun _ _ => Except.error "transport down") (fun _ _ => "unreachable") =
      RunOut.errorOut "LLM did not produce a valid tool plan." :=
  ⟨(claim_C4_theorem none (fun _ h => Option.noConfusion h)).1,
   (claim_C4_theorem none (fun _ h => Option.noConfusion h)).2.1 _ _⟩

/-- The execution loop equals the ordered per-step contributions: each
well-formed step contributes `stepEntry` (nothing for a falsy tool
name, one pair otherwise), independently of what the transport answers
for the other steps. -/
theorem exec_plan_eq_filterMap
    (call : Json → List (String × Json) → Except String (List ContentItem))
    (steps : List Json) (h : steps.all wfStep = true) :
    exec_plan call steps = some (steps.filterMap (stepEntry call)) := by
  induction steps with
  | nil => rfl
  | cons step rest ih =>
    simp only [List.all_cons, Bool.and_eq_true] at h
    obtain ⟨hs, hrest⟩ := h
    have ih₀ := ih hrest
    cases step with
    | obj fields =>
      cases harg : stepArgs (Json.obj fields) with
      | obj argFields =>
        by_cases ht : pyFalsy (stepTool (Json.obj fields)) = true
        · simp [exec_plan, harg, ht, ih₀, List.filterMap_cons, stepEntry]
        · simp only [Bool.not_eq_true] at ht
          simp [exec_plan, harg, ht, ih₀, List.filterMap_cons, stepEntry, stepArgFields]
      | null => simp [wfStep, harg] at hs
      | bool b => simp [wfStep, harg] at hs
      | num n => simp [wfStep, harg] at hs
      | str s => simp [wfStep, harg] at hs
      | arr l => simp [wfStep, harg] at hs
    | null => simp [wfStep] at hs
    | bool b => simp [wfStep] at hs
    | num n => simp [wfStep] at hs
    | str s => simp [wfStep] at hs
    | arr l => simp [wfStep] at hs

/-- C5: for a non-empty plan of well-formed steps, `run_query` reaches
`done`, the results are exactly the ordered per-step contributions (one
`(tool, result)` pair for every step with a truthy tool name, nothing
for a blank one, later steps unaffected by earlier failures since every
transport error is folded into the appended pair), and the summary is
the summarizer applied to the complete results sequence. -/
theorem claim_C5_theorem (steps : List Json)
    (call : Json → List (String × Json) → Except String (List ContentItem))
    (summ : List Json → List (Json × Json) → String)
    (h1 : steps ≠ []) (h2 : steps.all wfStep = true) :
    run_query (some (Json.obj [("plan", Json.arr steps)])) call summ =
      RunOut.done steps (steps.filterMap (stepEntry call))
        (summ steps (steps.filterMap (stepEntry call))) ∧
    (∀ step ∈ steps, pyFalsy (stepTool step) = true → stepEntry call step = none) ∧
    (∀ step ∈ steps, pyFalsy (stepTool step) = false →
      stepEntry call step =
        some (stepTool step,
              invoke_tool (call (stepTool step) (sanitize_args (stepArgFields step))))) := by
  have hfal : pyFalsy (Json.arr steps) = false := by
    cases steps with
    | nil => exact absurd rfl h1
    | cons s rest => rfl
  refine ⟨?_, ?_, ?_⟩
  · simp [run_query, plan_tools, hasPlanKey, getKey, hfal,
          exec_plan_eq_filterMap call steps h2]
  · intro step _ hskip
    simp [stepEntry, hskip]
  · intro step _ hrun
    simp [stepEntry, hrun]

/-- C5 witness: a two-step plan whose first step has a blank tool name
(skipped) and whose second step fails at the transport; the failed step
still yields exactly one ordered pair, and the summary is produced from
the full results. -/
theorem claim_C5_witness :
    run_query (some (Json.obj [("plan", Json.arr
        [Json.obj [("tool", Json.str "")],
         Json.obj [("tool", Json.str "health_check"),
                   ("arguments", Json.obj [("carrier", Json.str "unknown")])]])]))
      (fun _ _ => Except.error "boom") (fun _ _ => "summary text") =
      RunOut.done
        [Json.obj [("tool", Json.str "")],
         Json.obj [("tool", Json.str "health_check"),
                   ("arguments", Json.obj [("carrier", Json.str "unknown")])]]
        [(Json.str "health_check", Json.obj [("error", Json.str "boom")])]
        "summary text" :=
  (claim_C5_theorem
    [Json.obj [("tool", Json.str "")],
     Json.obj [("tool", Json.str "health_check"),
               ("arguments", Json.obj [("carrier", Json.str "unknown")])]]
    (fun _ _ => Except.error "boom") (fun _ _ => "summary text")
    (by simp) (by decide)).1

/-! ## Claim about date-normalization idempotence (C8) -/

/-- A padded digit character is a digit. -/
theorem digitChar_isDigit (k : Nat) (h : k < 10) : (digitChar k).isDigit = true := by
  interval_cases k <;> decide

/-- Reading back a padded digit character recovers the digit. -/
theorem digitVal_digitChar (k : Nat) (h : k < 10) : digitVal (digitChar k) = k := by
  interval_cases k <;> decide

/-- The `%Y` parser inverts the four-digit zero-padded rendering. -/
theorem parseYear4_pad4 (y : Nat) (h : y ≤ 9999) (rest : List Char) :
    parseYear4 (pad4chars y ++ rest) = some (y, rest) := by
  have h1 : y / 1000 < 10 := by omega
  have h2 : y / 100 % 10 < 10 := by omega
  have h3 : y / 10 % 10 < 10 := by omega
  have h4 : y % 10 < 10 := by omega
  simp [pad4chars, parseYear4, digitChar_isDigit _ h1, digitChar_isDigit _ h2,
        digitChar_isDigit _ h3, digitChar_isDigit _ h4,
        digitVal_digitChar _ h1, digitVal_digitChar _ h2,
        digitVal_digitChar _ h3, digitVal_digitChar _ h4]
  omega

/-- The `%m` parser inverts the two-digit zero-padded rendering for
months 1 to 12. -/
theorem parseMonthNum_pad2 (m : Nat) (h1 : 1 ≤ m) (h2 : m ≤ 12) (rest : List Char) :
    parseMonthNum (pad2chars m ++ rest) = some (m, rest) := by
  interval_cases m <;> rfl

/-- The `%d` parser inverts the two-digit zero-padded rendering for
days 1 to 31. -/
theorem parseDay_pad2 (d : Nat) (h1 : 1 ≤ d) (h2 : d ≤ 31) (rest : List Char) :
    parseDay (pad2chars d ++ rest) = some (d, rest) := by
  interval_cases d <;> rfl

/-- Running the first format (`%Y-%m-%d`) on an ISO rendering recovers
exactly the rendered components. -/
theorem runToks_iso (y m d : Nat) (hy : y ≤ 9999) (hm1 : 1 ≤ m) (hm2 : m ≤ 12)
    (hd1 : 1 ≤ d) (hd2 : d ≤ 31) :
    runToks [Tok.year, Tok.lit '-', Tok.monthNum, Tok.lit '-', Tok.dayNum]
      (pad4chars y ++ '-' :: (pad2chars m ++ '-' :: pad2chars d)) ⟨1900, 1, 1⟩ =
      some ⟨y, m, d⟩ := by
  have hpd : parseDay (pad2chars d) = some (d, []) := by
    have h₀ := parseDay_pad2 d hd1 hd2 []
    simpa using h₀
  simp [runToks, parseYear4_pad4 y hy, parseMonthNum_pad2 m hm1 hm2, hpd]

/-- Bounds carried by a successful constructor check. -/
theorem isValidDate_bounds (y m d : Nat) (h : isValidDate y m d = true) :
    1 ≤ y ∧ y ≤ 9999 ∧ 1 ≤ m ∧ m ≤ 12 ∧ 1 ≤ d ∧ d ≤ 31 := by
  have hd31 : daysInMonth y m ≤ 31 := by
    unfold daysInMonth
    split_ifs <;> omega
  simp only [isValidDate, Bool.and_eq_true, decide_eq_true_eq] at h
  omega

/-- The ISO rendering is never the empty string. -/
theorem fmtISO_ne_empty (y m d : Nat) : fmtISO y m d ≠ "" := by
  intro h
  have h₀ := congrArg String.data h
  simp [fmtISO, pad4chars] at h₀

/-- strptime with the first format inverts the ISO rendering of a valid
date. -/
theorem tryFormat_iso (y m d : Nat) (h : isValidDate y m d = true) :
    tryFormat [Tok.year, Tok.lit '-', Tok.monthNum, Tok.lit '-', Tok.dayNum] (fmtISO y m d) =
      some (y, m, d) := by
  obtain ⟨h1, h2, h3, h4, h5, h6⟩ := isValidDate_bounds y m d h
  unfold tryFormat
  rw [show (fmtISO y m d).data = pad4chars y ++ '-' :: (pad2chars m ++ '-' :: pad2chars d) from rfl]
  rw [runToks_iso y m d h2 h3 h4 h5 h6]
  simp [h]

/-- `validate_date` maps an ISO rendering of a valid date to itself:
the first format already matches, and re-rendering reproduces the
input byte for byte. -/
theorem validate_date_iso (y m d : Nat) (h : isValidDate y m d = true) :
    validate_date (fmtISO y m d) = some (fmtISO y m d) := by
  rw [validate_date, if_neg (fmtISO_ne_empty y m d)]
  simp [dateFormats, tryFormatsFirst, tryFormat_iso y m d h]

/-- Every successful `validate_date` output is the ISO rendering of a
valid date. -/
theorem tryFormatsFirst_shape (fs : List (List Tok)) (s t : String)
    (h : tryFormatsFirst fs s = some t) :
    ∃ y m d, isValidDate y m d = true ∧ t = fmtISO y m d := by
  induction fs with
  | nil => simp [tryFormatsFirst] at h
  | cons f fs ih =>
    rw [tryFormatsFirst] at h
    cases hf : tryFormat f s with
    | none =>
      rw [hf] at h
      exact ih h
    | some ymd =>
      obtain ⟨y, m, d⟩ := ymd
      rw [hf] at h
      have h' : some (fmtISO y m d) = some t := h
      have hv : isValidDate y m d = true := by
        unfold tryFormat at hf
        cases hr : runToks f s.data ⟨1900, 1, 1⟩ with
        | none =>
          rw [hr] at hf
          have hf₀ : (none : Option (Nat × Nat × Nat)) = some (y, m, d) := hf
          exact absurd hf₀ (by simp)
        | some acc =>
          rw [hr] at hf
          have hf' : (if isValidDate acc.y acc.m acc.d = true
              then some (acc.y, acc.m, acc.d)
              else (none : Option (Nat × Nat × Nat))) = some (y, m, d) := hf
          by_cases hvv : isValidDate acc.y acc.m acc.d = true
          · rw [if_pos hvv] at hf'
            have h₁ : acc.y = y := congrArg (fun p => p.1) (Option.some.inj hf')
            have h₂ : acc.m = m := congrArg (fun p => p.2.1) (Option.some.inj hf')
            have h₃ : acc.d = d := congrArg (fun p => p.2.2) (Option.some.inj hf')
            rw [← h₁, ← h₂, ← h₃]
            exact hvv
          · rw [if_neg hvv] at hf'
            exact absurd hf' (by simp)
      exact ⟨y, m, d, hv, (Option.some.inj h').symm⟩

/-- C8: `validate_date` (the `normalizeDate` of the spec) is idempotent
on its own output — whenever a date string is accepted, the produced
`YYYY-MM-DD` string re-parses to itself. -/
theorem claim_C8_theorem (s t : String) (h : validate_date s = some t) :
    validate_date t = some t := by
  rw [validate_date] at h
  by_cases hs : s = ""
  · rw [if_pos hs] at h
    exact absurd h (by simp)
  · rw [if_neg hs] at h
    obtain ⟨y, m, d, hv, rfl⟩ := tryFormatsFirst_shape _ _ _ h
    exact validate_date_iso y m d hv

/-- C8 witness: idempotence applied to a concrete accepted long-form
date. -/
theorem claim_C8_witness :
    validate_date "June 23, 2024" = some "2024-06-23" ∧
    validate_date "2024-06-23" = some "2024-06-23" :=
  ⟨by decide, claim_C8_theorem "June 23, 2024" "2024-06-23" (by decide)⟩
